import Mathlib

/-!
Verification development for the kira-art generative engine core.

The definitions below are a shallow embedding of the JavaScript source:

* `generative.js` — seeded hash (`hashFloat` / `hashInt`), the deterministic
  scene generator `walletToParams`, the `handleSolanaEvent` effect mapper and
  the `ParticleSystem` class (`initSystem` / `handleLiveEvent` / `update`);
* `helius.js` — the `HeliusLiveFeed` class: the log-line classifier of
  `_handleMessage`, the demo-mode probability bands of `_startDemoMode`,
  and the connection state machine (`connect` / `onopen` / `onclose` /
  `disconnect` handlers) with its reconnect backoff.

Modelling conventions:

* JS 64-bit floats are modelled as `ℚ`; `Math.imul`/`| 0` wrap-around is
  modelled with explicit `% 2 ^ 32` signed wrapping on `Int`.
* `Math.random()` draws are explicit parameters (a draw in `[0,1)` or an
  indexed stream `Nat → ℚ`); `Date.now()` is an explicit `now : Nat`.
* `Math.sin` / `Math.cos` / `Math.hypot` are opaque total function
  parameters of the simulation (`SimEnv`): the verified claims do not
  depend on their values, only on control flow.
* JS string `.length`/`charCodeAt` count UTF-16 units; we use Lean chars
  (code points), which agrees on all inputs appearing in the claims.
* A JS runtime `TypeError` (reading a property of `undefined`) is modelled
  by `Option`, with `none` for the thrown exception.
-/

set_option maxRecDepth 10000
set_option linter.unusedVariables false
set_option linter.unreachableTactic false
set_option linter.unusedTactic false

namespace KiraArt

/-! ### SeededHash — generative.js `hashFloat` / `hashInt` -/

/-- Wrap an integer to signed 32-bit two's complement, as JS `| 0` does. -/
def wrap32 (n : Int) : Int :=
  let m := n % 4294967296
  if m < 2147483648 then m else m - 4294967296

/-- JS `Math.imul`: 32-bit signed multiplication. -/
def jsImul (x y : Int) : Int := wrap32 (x * y)

/-- One step of the rolling hash: `h = Math.imul(31, h) + str.charCodeAt(i) | 0`. -/
def hashStep (h : Int) (c : Nat) : Int := wrap32 (jsImul 31 h + c)

/-- Fold `hashStep` over the characters of the string, starting from `seed`. -/
def hashAcc (seed : Int) (s : String) : Int :=
  s.data.foldl (fun h c => hashStep h c.toNat) seed

/-- generative.js `hashFloat(str, seed)`: `(Math.abs(h) % 100000) / 100000`. -/
def hashFloat (s : String) (seed : Int) : ℚ :=
  (((hashAcc seed s).natAbs % 100000 : ℕ) : ℚ) / 100000

/-- generative.js `hashInt(str, seed, max) = Math.floor(hashFloat(str, seed) * max)`. -/
def hashInt (s : String) (seed : Int) (max : Nat) : ℕ :=
  Nat.floor (hashFloat s seed * (max : ℚ))

theorem hashFloat_nonneg (s : String) (seed : Int) : 0 ≤ hashFloat s seed := by
  unfold hashFloat
  positivity

theorem hashFloat_lt_one (s : String) (seed : Int) : hashFloat s seed < 1 := by
  unfold hashFloat
  rw [div_lt_one (by norm_num)]
  exact_mod_cast Nat.mod_lt _ (by norm_num)

theorem hashInt_lt (s : String) (seed : Int) (max : ℕ) (hm : 0 < max) :
    hashInt s seed max < max := by
  unfold hashInt
  rw [Nat.floor_lt (mul_nonneg (hashFloat_nonneg s seed) (by positivity))]
  calc hashFloat s seed * (max : ℚ) < 1 * (max : ℚ) := by
        apply mul_lt_mul_of_pos_right (hashFloat_lt_one s seed)
        exact_mod_cast hm
    _ = (max : ℚ) := one_mul _

/-! ### SceneGenerator — generative.js `walletToParams` -/

/-- Ambient JS nondeterminism sources. `walletToParams` receives this
environment but — mirroring the source, which calls neither `Math.random`
nor `Date.now` in its body — never reads it. -/
structure JsEnv where
  random : Nat → ℚ
  nowMs : Nat

structure Palette where
  primary : String
  secondary : String
  accent : String
deriving DecidableEq, Repr

/-- The four fixed palettes of `walletToParams`. -/
def palettes : List Palette :=
  [⟨"#00e5ff", "#7c6af7", "#ff6b2b"⟩,
   ⟨"#00ff88", "#0066ff", "#ff0088"⟩,
   ⟨"#ffcc00", "#ff4400", "#00ccff"⟩,
   ⟨"#cc00ff", "#00ffcc", "#ff6600"⟩]

structure Node where
  x : ℚ
  y : ℚ
  mass : ℚ
  speed : ℚ
  phase : ℚ
  connections : List Nat
deriving DecidableEq, Repr

def dummyNode : Node := ⟨0, 0, 0, 0, 0, []⟩

/-- The JS double closest to π (`Math.PI`), as an exact rational. -/
def jsPI : ℚ := 884279719003555 / 281474976710656

/-- Node `i` as first created in the `walletToParams` node loop
(`connections` is filled in by a later pass, as in the source). -/
def baseNode (a : String) (i : Nat) : Node :=
  { x := hashFloat (a ++ toString i) (10 + i)
    y := hashFloat (a ++ toString i) (20 + i)
    mass := 3 / 10 + hashFloat (a ++ toString i) (30 + i) * (7 / 10)
    speed := 2 / 10000 + hashFloat (a ++ toString i) (40 + i) * (8 / 10000)
    phase := hashFloat (a ++ toString i) (50 + i) * jsPI * 2
    connections := [] }

/-- Connection pass for node `i`: candidates are all other nodes paired with
their distance, sorted ascending, first `connCount` kept.  The source sorts
by `Math.hypot` distance with a stable sort; we sort by squared Euclidean
distance, which induces the same order (`hypot` is monotone in it). -/
def connectionsFor (a : String) (nodes0 : List Node) (i : Nat) : List Nat :=
  let connCount := 2 + hashInt (a ++ "conn" ++ toString i) i 3
  let ni := nodes0.getD i dummyNode
  let candidates :=
    (nodes0.enum.map (fun c =>
      (c.1, (c.2.x - ni.x) ^ 2 + (c.2.y - ni.y) ^ 2))).filter (fun c => c.1 != i)
  let sorted := List.insertionSort (fun c d => c.2 ≤ d.2) candidates
  (sorted.take connCount).map (fun c => c.1)

structure SceneParams where
  nodeCount : Nat
  palette : Palette
  nodes : List Node
  particleCount : Nat
  turbulence : ℚ
  address : String
  liveEnabled : Bool
deriving DecidableEq, Repr

/-- generative.js default seed literal. -/
def defaultSeed : String := "default_kira_seed"

/-- generative.js `walletToParams(address)`.  The guard
`if (!address || address.length < 8)` collapses to a length test, since the
empty string has length `0 < 8`. -/
def walletToParams (env : JsEnv) (address : String) : SceneParams :=
  let a := if address.length < 8 then defaultSeed else address
  let nodeCount := 12 + hashInt a 1 36
  let paletteIdx := hashInt a 2 4
  let palette := palettes.getD paletteIdx ⟨"", "", ""⟩
  let nodes0 := (List.range nodeCount).map (baseNode a)
  let nodes := nodes0.enum.map (fun c =>
    { c.2 with connections := connectionsFor a nodes0 c.1 })
  let particleCount := 40 + hashInt a 3 80
  let turbulence := 3 / 10 + hashFloat a 4 * (7 / 10)
  { nodeCount := nodeCount
    palette := palette
    nodes := nodes
    particleCount := particleCount
    turbulence := turbulence
    address := a
    liveEnabled := false }

/-! ### Event taxonomy — helius.js `EventType` -/

inductive EventType where
  | tx
  | whale
  | mev
  | mint
  | burn
deriving DecidableEq, Repr

/-- The classified event delivered to the consumer callback
(`this.onEvent(\x7b type, magnitude, sig, timestamp \x7d)`). -/
structure Event where
  type : EventType
  magnitude : ℚ
  sig : String
  timestamp : Nat
deriving DecidableEq, Repr

/-! ### EventClassifier — helius.js `_handleMessage` log-pattern checks -/

/-- Whether `pat` is a prefix of `s`, on character lists. -/
def startsWithChars : List Char → List Char → Bool
  | [], _ => true
  | _ :: _, [] => false
  | a :: as, b :: bs => a == b && startsWithChars as bs

/-- Whether `pat` occurs contiguously in `s`, on character lists. -/
def occursInChars (pat : List Char) : List Char → Bool
  | [] => pat.isEmpty
  | s@(_ :: rest) => startsWithChars pat s || occursInChars pat rest

/-- JS `s.includes(pat)`. -/
def jsIncludes (s pat : String) : Bool := occursInChars pat.data s.data

def hasTransferLog (logs : List String) : Bool :=
  logs.any (fun l => jsIncludes l "Instruction: Transfer")

def hasLargeAmount (logs : List String) : Bool :=
  logs.any (fun l => jsIncludes l "1000000000")

def hasSwapLog (logs : List String) : Bool :=
  logs.any (fun l => jsIncludes l "Program log: Instruction: Swap" || jsIncludes l "ArbInstruction")

def hasMintLog (logs : List String) : Bool :=
  logs.any (fun l => jsIncludes l "Instruction: MintTo" || jsIncludes l "InitializeMint")

def hasBurnLog (logs : List String) : Bool :=
  logs.any (fun l => jsIncludes l "Instruction: Burn")

/-- The classification core of `_handleMessage` (helius.js lines 90–114):
`type`/`magnitude` start at the `tx` default and are overwritten by each of
the four independent `if`s in source order.  `r0`, `rW`, `rM` are the three
`Math.random()` draws (default, whale and mev magnitudes). -/
def classify (logs : List String) (r0 rW rM : ℚ) : EventType × ℚ :=
  let m0 : EventType × ℚ := (.tx, 3 / 10 + r0 * (4 / 10))
  let m1 := if hasTransferLog logs then
              (if hasLargeAmount logs then (.whale, 8 / 10 + rW * (2 / 10)) else m0)
            else m0
  let m2 := if hasSwapLog logs then (.mev, 6 / 10 + rM * (4 / 10)) else m1
  let m3 := if hasMintLog logs then (.mint, (1 : ℚ) / 2) else m2
  if hasBurnLog logs then (.burn, (1 : ℚ) / 2) else m3

/-! ### FeedController — helius.js `HeliusLiveFeed`

The mutable fields of the class (`connected`, `demoActive`, `reconnectDelay`,
`eventCount`, `lastEventMs`) are modelled directly; the browser event loop is
modelled by ghost scheduling fields: whether a transport object is open
(`wsOpen`), whether its `close` event is queued but not yet delivered
(`pendingClose`), whether a `setTimeout(() => this.connect(), …)` is
outstanding (`pendingReconnect`), and how many demo-loop timer callbacks are
outstanding (`pendingDemo`). -/

structure FeedState where
  connected : Bool
  demoActive : Bool
  reconnectDelay : ℚ
  eventCount : Nat
  lastEventMs : Nat
  wsOpen : Bool
  pendingClose : Bool
  pendingReconnect : Bool
  pendingDemo : Nat
deriving DecidableEq, Repr

/-- Constructor state (helius.js lines 24–33). -/
def initFeed : FeedState :=
  { connected := false
    demoActive := false
    reconnectDelay := 2000
    eventCount := 0
    lastEventMs := 0
    wsOpen := false
    pendingClose := false
    pendingReconnect := false
    pendingDemo := 0 }

/-- The demo-mode probability bands (helius.js lines 136–153): `rand` is the
band draw, `rand2` the magnitude draw of the taken branch. -/
def demoClassify (rand rand2 : ℚ) : EventType × ℚ :=
  if rand < 5 / 1000 then (.whale, 85 / 100 + rand2 * (15 / 100))
  else if rand < 25 / 1000 then (.mev, 6 / 10 + rand2 * (3 / 10))
  else if rand < 4 / 100 then (.mint, 1 / 2)
  else if rand < 5 / 100 then (.burn, 45 / 100)
  else (.tx, 2 / 10 + rand2 * (5 / 10))

/-- `_startDemoMode` entry (lines 127–129 and the initial `scheduleNext()`):
bail out if the loop is already active, otherwise mark it active and schedule
the first timer callback. -/
def startDemoMode (st : FeedState) : FeedState :=
  if st.demoActive then st
  else { st with demoActive := true, pendingDemo := st.pendingDemo + 1 }

/-- One demo-loop timer callback firing (lines 133–162).  Returns the state
and the event delivered to `onEvent`, if any.  Only a callback that takes the
first branch calls `scheduleNext()` again. -/
def demoTick (rand rand2 : ℚ) (now : Nat) (st : FeedState) : FeedState × Option Event :=
  let st1 := { st with pendingDemo := st.pendingDemo - 1 }
  if !st1.connected && st1.demoActive then
    let c := demoClassify rand rand2
    ({ st1 with eventCount := st1.eventCount + 1
                lastEventMs := now
                pendingDemo := st1.pendingDemo + 1 },
     some { type := c.1, magnitude := c.2, sig := "demo", timestamp := now })
  else if st1.connected then
    ({ st1 with demoActive := false }, none)
  else
    (st1, none)

/-- `connect()` (lines 35–81): with no usable API key, fall straight into demo
mode; otherwise create the transport (its handlers are installed with it). -/
def connect (hasKey : Bool) (st : FeedState) : FeedState :=
  if !hasKey then startDemoMode st
  else { st with wsOpen := true }

/-- The `onopen` handler (lines 45–56): set `connected` and send the
subscription request.  It does not touch `reconnectDelay`. -/
def onOpen (st : FeedState) : FeedState := { st with connected := true }

/-- The `onclose` handler (lines 65–70): clear `connected`, schedule a
reconnect after the current `reconnectDelay`, then grow the delay by 1.5×
capped at 30000.  Returns the delay the scheduled attempt will wait. -/
def onClose (st : FeedState) : FeedState × ℚ :=
  ({ st with connected := false
             wsOpen := false
             pendingClose := false
             pendingReconnect := true
             reconnectDelay := min (st.reconnectDelay * (3 / 2)) 30000 },
   st.reconnectDelay)

/-- The `onerror` handler (lines 72–76): close the transport (queueing its
`close` event) and start demo mode if it is not already running. -/
def onError (st : FeedState) : FeedState :=
  startDemoMode { st with wsOpen := false, pendingClose := st.wsOpen || st.pendingClose }

/-- `disconnect()` (lines 169–172): `ws.close()` queues the `close` event of
an open transport — the handler stays installed — and the flag is cleared. -/
def disconnect (st : FeedState) : FeedState :=
  { st with connected := false
            wsOpen := false
            pendingClose := st.wsOpen || st.pendingClose }

/-! ### Feed messages — helius.js `onmessage` / `_handleMessage` -/

/-- A JSON value, as produced by `JSON.parse`. -/
inductive Json where
  | null
  | bool (b : Bool)
  | num (q : ℚ)
  | str (s : String)
  | arr (elems : List Json)
  | obj (fields : List (String × Json))

def Json.getField : Json → String → Option Json
  | .obj fs, k => fs.lookup k
  | _, _ => none

/-- JS truthiness of a parsed JSON value. -/
def Json.truthy : Json → Bool
  | .null => false
  | .bool b => b
  | .num q => !(q == 0)
  | .str s => !s.isEmpty
  | .arr _ => true
  | .obj _ => true

/-- The optional chain `data?.params?.result?.value`. -/
def chainPRV (d : Json) : Option Json :=
  ((d.getField "params").bind (fun p => p.getField "result")).bind
    (fun r => r.getField "value")

/-- `value.logs || []`, reading the string entries of the `logs` array. -/
def jsonLogs (v : Json) : List String :=
  match v.getField "logs" with
  | some (.arr es) => es.filterMap (fun e => match e with | .str s => some s | _ => none)
  | _ => []

/-- `value.signature || ''`. -/
def jsonSig (v : Json) : String :=
  match v.getField "signature" with
  | some (.str s) => s
  | _ => ""

/-- `_handleMessage(data)` (lines 83–125): bail out unless the optional chain
resolves to a truthy value; otherwise classify the logs, bump the counters and
deliver the event. -/
def handleMessage (now : Nat) (r0 rW rM : ℚ) (data : Json) (st : FeedState) :
    FeedState × Option Event :=
  match chainPRV data with
  | none => (st, none)
  | some v =>
    if !v.truthy then (st, none)
    else
      let logs := jsonLogs v
      let sig := jsonSig v
      let c := classify logs r0 rW rM
      ({ st with eventCount := st.eventCount + 1, lastEventMs := now },
       some { type := c.1, magnitude := c.2, sig := sig.take 8, timestamp := now })

/-- The `onmessage` handler (lines 58–63): `JSON.parse` inside `try`/`catch` —
`raw = none` models a payload that fails to parse, and the exception is
swallowed. -/
def onMessage (now : Nat) (r0 rW rM : ℚ) (raw : Option Json) (st : FeedState) :
    FeedState × Option Event :=
  match raw with
  | none => (st, none)
  | some d => handleMessage now r0 rW rM d st

/-! ### The feed as a transition system -/

/-- One scheduling step of the `HeliusLiveFeed` event loop: an external
`connect()`/`disconnect()` call, a transport event firing, a queued timer
callback firing. -/
inductive FeedStep (hasKey : Bool) : FeedState → FeedState → Prop
  | callConnect (st : FeedState) : FeedStep hasKey st (connect hasKey st)
  | callDisconnect (st : FeedState) : FeedStep hasKey st (disconnect st)
  | openEvt (st : FeedState) (h : st.wsOpen = true) : FeedStep hasKey st (onOpen st)
  | closeEvt (st : FeedState) (h : st.pendingClose = true ∨ st.wsOpen = true) :
      FeedStep hasKey st (onClose st).1
  | errorEvt (st : FeedState) (h : st.wsOpen = true) : FeedStep hasKey st (onError st)
  | msgEvt (st : FeedState) (now : Nat) (r0 rW rM : ℚ) (raw : Option Json)
      (h : st.wsOpen = true) : FeedStep hasKey st (onMessage now r0 rW rM raw st).1
  | demoFire (st : FeedState) (rand rand2 : ℚ) (now : Nat) (h : 1 ≤ st.pendingDemo) :
      FeedStep hasKey st (demoTick rand rand2 now st).1
  | reconnectFire (st : FeedState) (h : st.pendingReconnect = true) :
      FeedStep hasKey st (connect hasKey { st with pendingReconnect := false })

/-- The states the feed can reach from its constructor state. -/
def FeedReachable (hasKey : Bool) (st : FeedState) : Prop :=
  Relation.ReflTransGen (FeedStep hasKey) initFeed st

/-- The inductive invariant of the feed loop: the backoff delay stays within
its designed band, and the demo loop has exactly one outstanding timer
callback while active and none while inactive. -/
def FeedInv (st : FeedState) : Prop :=
  2000 ≤ st.reconnectDelay ∧ st.reconnectDelay ≤ 30000 ∧
  (st.demoActive = true → st.pendingDemo = 1) ∧
  (st.demoActive = false → st.pendingDemo = 0)

/-! ### ParticleSimulation — generative.js `handleSolanaEvent` / `ParticleSystem` -/

/-- `handleSolanaEvent`'s visual effect object (color / size / duration from
the effects table, plus the fields copied from the event). -/
structure Effect where
  type : EventType
  magnitude : ℚ
  color : String
  size : ℚ
  duration : ℚ
  sig : String
  timestamp : Nat
deriving DecidableEq, Repr

/-- The `effects` lookup table of `handleSolanaEvent` (generative.js
lines 366–372); total over the five event types, so the `|| effects.tx`
fallback never fires. -/
def effectBase : EventType → String × ℚ × ℚ
  | .tx => ("#00ffff", 3 / 10, 800)
  | .whale => ("#ff00ff", 12 / 10, 2000)
  | .mev => ("#ffff00", 8 / 10, 1200)
  | .mint => ("#00ff00", 6 / 10, 1500)
  | .burn => ("#ff0000", 7 / 10, 1400)

/-- `handleSolanaEvent(event)` (generative.js lines 361–386): spread-copy of
the effects table entry, then `type`, `magnitude`, `timestamp`, `sig` set.
(The `window.dispatchEvent` broadcast is out of the verified core.) -/
def handleSolanaEvent (ev : Event) : Effect :=
  let b := effectBase ev.type
  { type := ev.type
    magnitude := ev.magnitude
    color := b.1
    size := b.2.1
    duration := b.2.2
    sig := ev.sig
    timestamp := ev.timestamp }

/-- A node of the running system, as produced by `_scaleNode`: the spread of
the params node plus the scaled `sx`/`sy` cache. -/
structure SimNode where
  x : ℚ
  y : ℚ
  mass : ℚ
  speed : ℚ
  phase : ℚ
  connections : List Nat
  sx : ℚ
  sy : ℚ
deriving DecidableEq, Repr

def dummySimNode : SimNode := ⟨0, 0, 0, 0, 0, [], 0, 0⟩

/-- A particle.  `homeNode` is `none` when the JS object has no `homeNode`
field (as for particles pushed by the `mint` branch of `handleLiveEvent`),
in which case `this.scaledNodes[p.homeNode]` is `undefined`. -/
structure Particle where
  x : ℚ
  y : ℚ
  vx : ℚ
  vy : ℚ
  life : ℚ
  maxLife : ℚ
  homeNode : Option Nat
  trail : List (ℚ × ℚ)
deriving DecidableEq, Repr

/-- The visual effect slot set by `handleLiveEvent`
(`this.liveEffect = \x7b ...effect, x, y, start, duration \x7d`). -/
structure ActiveEffect where
  type : EventType
  magnitude : ℚ
  color : String
  size : ℚ
  duration : ℚ
  sig : String
  timestamp : Nat
  x : ℚ
  y : ℚ
  start : Nat
deriving DecidableEq, Repr

/-- The mutable state of a `ParticleSystem` (canvas dimensions, params,
particles, time, scaled node cache, active visual effect). -/
structure SysState where
  width : ℚ
  height : ℚ
  params : SceneParams
  particles : List Particle
  time : ℚ
  scaledNodes : List SimNode
  liveEffect : Option ActiveEffect
deriving DecidableEq, Repr

/-- `_scaleNode(node)` (generative.js lines 497–503). -/
def scaleNode (W H : ℚ) (n : Node) : SimNode :=
  { x := n.x, y := n.y, mass := n.mass, speed := n.speed, phase := n.phase,
    connections := n.connections, sx := n.x * W, sy := n.y * H }

/-- One particle of `_initParticles` (lines 509–522); `rng` is the
`Math.random()` stream, six draws per particle in source order. -/
def initParticle (rng : Nat → ℚ) (scaled : List SimNode) (i : Nat) : Particle :=
  let home := scaled.getD (i % scaled.length) dummySimNode
  { x := home.sx + (rng (6 * i) - 1 / 2) * 60
    y := home.sy + (rng (6 * i + 1) - 1 / 2) * 60
    vx := (rng (6 * i + 2) - 1 / 2) * (1 / 2)
    vy := (rng (6 * i + 3) - 1 / 2) * (1 / 2)
    life := rng (6 * i + 4)
    maxLife := 6 / 10 + rng (6 * i + 5) * (4 / 10)
    homeNode := some (i % scaled.length)
    trail := [] }

/-- The constructor plus `_initParticles` (lines 440–449 and 505–523). -/
def initSystem (rng : Nat → ℚ) (W H : ℚ) (params : SceneParams) : SysState :=
  let scaled := params.nodes.map (scaleNode W H)
  { width := W
    height := H
    params := params
    particles := (List.range params.particleCount).map (initParticle rng scaled)
    time := 0
    scaledNodes := scaled
    liveEffect := none }

/-- `handleLiveEvent(effect)` (lines 451–495).  `rIdx` is the epicenter draw,
`rVx`/`rVy` the mint-velocity draws.  The whale branch tests
`Math.sqrt(dx*dx + dy*dy) < 200`, modelled by the equivalent
`dx^2 + dy^2 < 40000`.  The particle pushed by the mint branch has no
`homeNode` field in the source — hence `homeNode := none`. -/
def handleLiveEvent (rIdx rVx rVy : ℚ) (now : Nat) (eff : Effect) (st : SysState) :
    SysState :=
  let idx := Nat.floor (rIdx * (st.params.nodes.length : ℚ))
  let node := st.params.nodes.getD idx dummyNode
  let live : ActiveEffect :=
    { type := eff.type
      magnitude := eff.magnitude
      color := eff.color
      size := eff.size
      duration := if eff.duration == 0 then 1000 else eff.duration
      sig := eff.sig
      timestamp := eff.timestamp
      x := node.x
      y := node.y
      start := now }
  let st1 := { st with liveEffect := some live }
  if eff.type == .whale then
    { st1 with particles := st1.particles.map (fun p =>
        let dx := node.x * st1.width - p.x
        let dy := node.y * st1.height - p.y
        if dx ^ 2 + dy ^ 2 < 40000 then
          { p with vx := p.vx + dx * (5 / 10000) * eff.magnitude
                   vy := p.vy + dy * (5 / 10000) * eff.magnitude }
        else p) }
  else if eff.type == .mint then
    { st1 with particles := st1.particles ++
        [{ x := node.x * st1.width
           y := node.y * st1.height
           vx := (rVx - 1 / 2) * 2
           vy := (rVy - 1 / 2) * 2
           life := 1000
           maxLife := 1000
           homeNode := none
           trail := [] }] }
  else if eff.type == .burn then
    { st1 with particles := st1.particles.filter (fun p =>
        let dx := node.x * st1.width - p.x
        let dy := node.y * st1.height - p.y
        decide (dx * dx + dy * dy > 4000)) }
  else st1

/-- The ambient functions `update` calls whose float values the verified
claims never depend on: `Math.sin`, `Math.cos`, `Math.hypot` as opaque total
functions, and the `Math.random()` stream for respawns. -/
structure SimEnv where
  sinF : ℚ → ℚ
  cosF : ℚ → ℚ
  hypotF : ℚ → ℚ → ℚ
  rng : Nat → ℚ

/-- The per-particle body of `update()` (lines 534–567).  The source first
evaluates `this.scaledNodes[p.homeNode].sx`: when `homeNode` is absent or out
of range that indexing yields `undefined` and reading `.sx` throws — the
`none` results.  `i` indexes the respawn `Math.random()` draws. -/
def updateParticle (env : SimEnv) (W H time turb : ℚ) (scaled : List SimNode)
    (i : Nat) (p : Particle) : Option Particle :=
  match p.homeNode with
  | none => none
  | some hn =>
    match scaled.get? hn with
    | none => none
    | some home =>
      let dx := home.sx + env.sinF (time + home.phase) * 40 - p.x
      let dy := home.sy + env.cosF (time * (7 / 10) + home.phase) * 40 - p.y
      let dist := env.hypotF dx dy
      let angle := (p.x * (3 / 1000) + p.y * (3 / 1000) + time * (3 / 10)) * turb
      let vx := (p.vx + dx / max dist 1 * (4 / 100) + env.cosF angle * (2 / 100)) * (96 / 100)
      let vy := (p.vy + dy / max dist 1 * (4 / 100) + env.sinF angle * (2 / 100)) * (96 / 100)
      let x := p.x + vx
      let y := p.y + vy
      let trail := p.trail ++ [(x, y)]
      let trail := if trail.length > 18 then trail.drop 1 else trail
      let life := p.life + 4 / 1000
      if life > p.maxLife || x < 0 || x > W || y < 0 || y > H then
        some { p with
          x := home.sx + (env.rng (4 * i) - 1 / 2) * 80
          y := home.sy + (env.rng (4 * i + 1) - 1 / 2) * 80
          vx := (env.rng (4 * i + 2) - 1 / 2) * (4 / 10)
          vy := (env.rng (4 * i + 3) - 1 / 2) * (4 / 10)
          life := 0
          trail := [] }
      else
        some { p with x := x, y := y, vx := vx, vy := vy, life := life, trail := trail }

/-- `update()` (lines 529–574): advance time, update every particle (the
first JS `TypeError` aborts the tick — `none`), then drift the nodes. -/
def update (env : SimEnv) (st : SysState) : Option SysState :=
  let time := st.time + 8 / 1000
  match st.particles.enum.mapM (fun c =>
      updateParticle env st.width st.height time st.params.turbulence st.scaledNodes
        c.1 c.2) with
  | none => none
  | some ps =>
    some { st with
      time := time
      particles := ps
      scaledNodes := st.scaledNodes.map (fun n =>
        { n with
          sx := n.x * st.width + env.sinF (time * n.speed * 200 + n.phase) * 18
          sy := n.y * st.height + env.cosF (time * n.speed * 160 + n.phase) * 18 }) }

/-! ### Concrete instances used in counterexamples and witnesses -/

def zeroRng : Nat → ℚ := fun _ => 0

def zeroJsEnv : JsEnv := ⟨zeroRng, 0⟩

def zeroSimEnv : SimEnv := ⟨fun _ => 0, fun _ => 0, fun _ _ => 0, zeroRng⟩

/-- A one-node scene handed to the `ParticleSystem` constructor. -/
def soloNode : Node :=
  { x := 1 / 2, y := 1 / 2, mass := 1 / 2, speed := 1 / 2000, phase := 0, connections := [] }

def miniParams : SceneParams :=
  { nodeCount := 1
    palette := ⟨"", "", ""⟩
    nodes := [soloNode]
    particleCount := 1
    turbulence := 1 / 2
    address := "demo-wallet"
    liveEnabled := false }

/-- A classified `mint` event as the demo feed delivers it. -/
def mintEvent : Event := { type := .mint, magnitude := 1 / 2, sig := "demo", timestamp := 0 }

def initMini : SysState := initSystem zeroRng 100 100 miniParams

/-- `initMini` after `applyEvent` of the mint effect. -/
def afterMint : SysState := handleLiveEvent 0 0 0 0 (handleSolanaEvent mintEvent) initMini

/-- A feed that connected successfully: `connect()` then the `open` event. -/
def liveFeedState : FeedState := onOpen (connect true initFeed)

/-- A message whose logs match both a mint pattern and a burn pattern. -/
def mintBurnLogs : List String :=
  ["Program log: Instruction: MintTo", "Program log: Instruction: Burn"]

/-! ## Theorems -/

/-! ### Generic list facts used below -/

theorem mapM_option_eq_none {α β : Type} (f : α → Option β) :
    ∀ l : List α, (∃ x ∈ l, f x = none) → l.mapM f = none := by
  intro l
  induction l with
  | nil => rintro ⟨x, hx, _⟩; cases hx
  | cons a as ih =>
    rintro ⟨x, hx, hfx⟩
    rw [List.mapM_cons]
    rcases List.mem_cons.mp hx with rfl | hmem
    · rw [hfx]; rfl
    · cases hfa : f a with
      | none => rfl
      | some y => rw [ih ⟨x, hmem, hfx⟩]; rfl

theorem mapM_option_isSome {α β : Type} (f : α → Option β) :
    ∀ l : List α, (∀ x ∈ l, (f x).isSome = true) → (l.mapM f).isSome = true := by
  intro l
  induction l with
  | nil => intro _; rfl
  | cons a as ih =>
    intro h
    have ha := h a (List.mem_cons_self a as)
    have has := ih (fun x hx => h x (List.mem_cons_of_mem a hx))
    rw [List.mapM_cons]
    cases hfa : f a with
    | none => rw [hfa] at ha; simp at ha
    | some y =>
      cases hmm : as.mapM f with
      | none => rw [hmm] at has; simp at has
      | some ys => rfl

theorem exists_mem_enumFrom_of_mem {α : Type} {p : α} :
    ∀ {l : List α} (n : Nat), p ∈ l → ∃ i, (i, p) ∈ l.enumFrom n := by
  intro l
  induction l with
  | nil => intro n h; cases h
  | cons a as ih =>
    intro n h
    rcases List.mem_cons.mp h with rfl | hmem
    · exact ⟨n, List.mem_cons_self _ _⟩
    · rcases ih (n + 1) hmem with ⟨i, hi⟩
      exact ⟨i, List.mem_cons_of_mem _ hi⟩

theorem exists_mem_enum_of_mem {α : Type} {p : α} {l : List α} (h : p ∈ l) :
    ∃ i, (i, p) ∈ l.enum :=
  exists_mem_enumFrom_of_mem 0 h

theorem snd_mem_of_mem_enumFrom {α : Type} {c : Nat × α} :
    ∀ {l : List α} {n : Nat}, c ∈ l.enumFrom n → c.2 ∈ l := by
  intro l
  induction l with
  | nil => intro n h; cases h
  | cons a as ih =>
    intro n h
    rcases List.mem_cons.mp h with rfl | hmem
    · exact List.mem_cons_self _ _
    · exact List.mem_cons_of_mem _ (ih hmem)

theorem snd_mem_of_mem_enum {α : Type} {c : Nat × α} {l : List α} (h : c ∈ l.enum) :
    c.2 ∈ l :=
  snd_mem_of_mem_enumFrom h

/-! ### Simulation lemmas -/

theorem updateParticle_eq_none (env : SimEnv) (W H t turb : ℚ) (scaled : List SimNode)
    (i : Nat) {p : Particle} (hp : p.homeNode = none) :
    updateParticle env W H t turb scaled i p = none := by
  unfold updateParticle
  rw [hp]

theorem updateParticle_isSome (env : SimEnv) (W H t turb : ℚ) {scaled : List SimNode}
    {k : Nat} (i : Nat) {p : Particle} (hp : p.homeNode = some k)
    (hk : k < scaled.length) :
    (updateParticle env W H t turb scaled i p).isSome = true := by
  unfold updateParticle
  rw [hp]
  dsimp only
  rw [List.get?_eq_get hk]
  dsimp only
  split <;> rfl

theorem update_eq_none (env : SimEnv) (st : SysState)
    (h : ∃ p ∈ st.particles, p.homeNode = none) : update env st = none := by
  rcases h with ⟨p, hmem, hp⟩
  rcases exists_mem_enum_of_mem hmem with ⟨i, hi⟩
  simp only [update]
  rw [mapM_option_eq_none _ _
    ⟨(i, p), hi, updateParticle_eq_none env st.width st.height (st.time + 8 / 1000)
      st.params.turbulence st.scaledNodes i hp⟩]

theorem handleLiveEvent_mint (rIdx rVx rVy : ℚ) (now : Nat) (eff : Effect)
    (st : SysState) (h : eff.type = .mint) :
    ∃ mp, (handleLiveEvent rIdx rVx rVy now eff st).particles = st.particles ++ [mp] ∧
      mp.homeNode = none := by
  unfold handleLiveEvent
  rw [h]
  exact ⟨_, rfl, rfl⟩

theorem update_isSome (env : SimEnv) (st : SysState)
    (h : ∀ p ∈ st.particles, ∃ k, p.homeNode = some k ∧ k < st.scaledNodes.length) :
    (update env st).isSome = true := by
  simp only [update]
  have hall : ∀ c ∈ st.particles.enum,
      (updateParticle env st.width st.height (st.time + 8 / 1000) st.params.turbulence
        st.scaledNodes c.1 c.2).isSome = true := by
    intro c hc
    rcases h c.2 (snd_mem_of_mem_enum hc) with ⟨k, hk1, hk2⟩
    exact updateParticle_isSome env _ _ _ _ c.1 hk1 hk2
  have hsome := mapM_option_isSome
    (fun c : Nat × Particle =>
      updateParticle env st.width st.height (st.time + 8 / 1000) st.params.turbulence
        st.scaledNodes c.1 c.2) st.particles.enum hall
  rcases Option.isSome_iff_exists.mp hsome with ⟨ps, hps⟩
  rw [hps]
  rfl

theorem update_init_isSome (env : SimEnv) (rng : Nat → ℚ) (W H : ℚ) (P : SceneParams)
    (hP : P.nodes ≠ []) : (update env (initSystem rng W H P)).isSome = true := by
  have hlen : 0 < (P.nodes.map (scaleNode W H)).length := by
    rw [List.length_map]
    exact List.length_pos.mpr hP
  apply update_isSome
  intro p hp
  simp only [initSystem] at hp
  rcases List.mem_map.mp hp with ⟨j, _, hj⟩
  refine ⟨j % (P.nodes.map (scaleNode W H)).length, ?_, ?_⟩
  · rw [← hj]
    rfl
  · exact Nat.mod_lt _ hlen

/-- C1: the claim that `applyEvent` never fails and every subsequent `tick`
succeeds is right as a specification, but the code breaks it: the particle
pushed by the `mint` branch of `handleLiveEvent` carries no `homeNode`, so
the very next `update()` reads `this.scaledNodes[undefined].sx` and throws.
Concretely: from `init` (one node, one particle), `update` succeeds; after
applying a mint effect exactly one particle was appended, and `update` then
fails. -/
theorem mint_then_tick_fails :
    update zeroSimEnv afterMint = none ∧
    afterMint.particles.length = initMini.particles.length + 1 ∧
    (update zeroSimEnv initMini).isSome = true := by
  have hmint : (handleSolanaEvent mintEvent).type = .mint := rfl
  rcases handleLiveEvent_mint 0 0 0 0 (handleSolanaEvent mintEvent) initMini hmint with
    ⟨mp, hps, hmp⟩
  refine ⟨?_, ?_, ?_⟩
  · exact update_eq_none zeroSimEnv afterMint
      ⟨mp, by rw [show afterMint.particles = initMini.particles ++ [mp] from hps];
              exact List.mem_append_right _ (List.mem_singleton_self mp), hmp⟩
  · rw [show afterMint.particles = initMini.particles ++ [mp] from hps,
      List.length_append]
    rfl
  · exact update_init_isSome zeroSimEnv zeroRng 100 100 miniParams (by
      intro hcon
      simp [miniParams] at hcon)

/-! ### SceneGenerator determinism and normalization -/

/-- C5: the scene generator is a pure function of the seed string — it reads
nothing from the ambient environment (`Math.random` / `Date.now`), so two
independent invocations with the same seed produce identical `SceneParams`,
including node order, per-node attributes, connection lists, palette and
counts (structural equality of `SceneParams` is deep equality). -/
theorem generator_deterministic (e1 e2 : JsEnv) (s : String) :
    walletToParams e1 s = walletToParams e2 s := rfl

/-- C8: a seed that is empty or shorter than 8 characters is replaced by the
fixed default seed literal before any hashing, so all such seeds generate
exactly the default seed's `SceneParams`. -/
theorem short_seed_uses_default (env : JsEnv) (s : String) (h : s.length < 8) :
    walletToParams env s = walletToParams env defaultSeed := by
  unfold walletToParams
  rw [if_pos h, if_neg (by decide : ¬defaultSeed.length < 8)]

/-- Witness for C8 at the concrete seed `"abc"`. -/
theorem short_seed_uses_default_witness :
    walletToParams zeroJsEnv "abc" = walletToParams zeroJsEnv defaultSeed :=
  short_seed_uses_default zeroJsEnv "abc" (by decide)

/-! ### Range invariants of the generated scene -/

theorem length_filter_ne_enumFrom_all {α : Type} :
    ∀ (l : List α) (n i : Nat), i < n →
      ((l.enumFrom n).filter (fun c => c.1 != i)).length = l.length := by
  intro l
  induction l with
  | nil => intro n i h; rfl
  | cons a as ih =>
    intro n i h
    have hne : (n != i) = true := by simp only [bne_iff_ne, ne_eq]; omega
    simp only [List.enumFrom, List.filter_cons, hne, if_true, List.length_cons]
    rw [ih (n + 1) i (by omega)]

theorem length_filter_ne_enumFrom {α : Type} :
    ∀ (l : List α) (n i : Nat), n ≤ i → i < n + l.length →
      ((l.enumFrom n).filter (fun c => c.1 != i)).length = l.length - 1 := by
  intro l
  induction l with
  | nil => intro n i h1 h2; simp at h2; omega
  | cons a as ih =>
    intro n i h1 h2
    rcases Nat.eq_or_lt_of_le h1 with rfl | hlt
    · have hne : (n != n) = false := by simp
      simp only [List.enumFrom, List.filter_cons, hne, if_false, Bool.false_eq_true,
        List.length_cons]
      rw [length_filter_ne_enumFrom_all as (n + 1) n (by omega)]
      omega
    · have hne : (n != i) = true := by simp only [bne_iff_ne, ne_eq]; omega
      have has : 1 ≤ as.length := by
        simp only [List.length_cons] at h2
        omega
      simp only [List.enumFrom, List.filter_cons, hne, if_true, List.length_cons]
      rw [ih (n + 1) i (by omega) (by simp only [List.length_cons] at h2; omega)]
      omega

theorem connectionsFor_length (a : String) (nodes0 : List Node) (i : Nat)
    (hi : i < nodes0.length) :
    (connectionsFor a nodes0 i).length =
      min (2 + hashInt (a ++ "conn" ++ toString i) i 3) (nodes0.length - 1) := by
  unfold connectionsFor
  rw [List.length_map, List.length_take, List.length_insertionSort]
  congr 1
  rw [List.filter_map, List.length_map]
  rw [List.filter_congr (by intro c hc; rfl :
    ∀ c ∈ nodes0.enum, ((fun c => c.1 != i) ∘
      (fun c => (c.1, (c.2.x - (nodes0.getD i dummyNode).x) ^ 2 +
        (c.2.y - (nodes0.getD i dummyNode).y) ^ 2))) c = (fun c => c.1 != i) c)]
  exact length_filter_ne_enumFrom nodes0 0 i (Nat.zero_le i) (by omega)

theorem connectionsFor_not_self (a : String) (nodes0 : List Node) (i : Nat) :
    i ∉ connectionsFor a nodes0 i := by
  unfold connectionsFor
  intro hmem
  rcases List.mem_map.mp hmem with ⟨c, hc, hc1⟩
  have hc2 := List.take_subset _ _ hc
  have hc3 := (List.perm_insertionSort (fun c d : Nat × ℚ => c.2 ≤ d.2) _).mem_iff.mp hc2
  have hp := List.of_mem_filter hc3
  simp only [hc1, bne_self_eq_false] at hp
  exact Bool.false_ne_true hp

theorem wtp_nodeCount (env : JsEnv) (s : String) :
    (walletToParams env s).nodeCount =
      12 + hashInt (if s.length < 8 then defaultSeed else s) 1 36 := rfl

theorem wtp_particleCount (env : JsEnv) (s : String) :
    (walletToParams env s).particleCount =
      40 + hashInt (if s.length < 8 then defaultSeed else s) 3 80 := rfl

theorem wtp_turbulence (env : JsEnv) (s : String) :
    (walletToParams env s).turbulence =
      3 / 10 + hashFloat (if s.length < 8 then defaultSeed else s) 4 * (7 / 10) := rfl

theorem wtp_nodes (env : JsEnv) (s : String) :
    (walletToParams env s).nodes =
      (((List.range (12 + hashInt (if s.length < 8 then defaultSeed else s) 1 36)).map
        (baseNode (if s.length < 8 then defaultSeed else s))).enum.map (fun c =>
        { c.2 with connections := (connectionsFor (if s.length < 8 then defaultSeed else s)
            ((List.range (12 + hashInt (if s.length < 8 then defaultSeed else s) 1 36)).map
              (baseNode (if s.length < 8 then defaultSeed else s))) c.1) })) := rfl

/-- C6: for every seed, the generated scene satisfies all the documented
range invariants: `12 ≤ nodeCount ≤ 48`, `40 ≤ particleCount ≤ 120`,
`0.3 ≤ turbulence ≤ 1.0`, and each node's connection list has between 2 and
4 entries and never contains the node's own index. -/
theorem scene_param_ranges (env : JsEnv) (s : String) :
    12 ≤ (walletToParams env s).nodeCount ∧ (walletToParams env s).nodeCount ≤ 48 ∧
    40 ≤ (walletToParams env s).particleCount ∧
    (walletToParams env s).particleCount ≤ 120 ∧
    3 / 10 ≤ (walletToParams env s).turbulence ∧ (walletToParams env s).turbulence ≤ 1 ∧
    ∀ i (hi : i < (walletToParams env s).nodes.length),
      2 ≤ ((walletToParams env s).nodes[i]).connections.length ∧
      ((walletToParams env s).nodes[i]).connections.length ≤ 4 ∧
      i ∉ ((walletToParams env s).nodes[i]).connections := by
  rw [wtp_nodeCount, wtp_particleCount, wtp_turbulence, wtp_nodes]
  set A := if s.length < 8 then defaultSeed else s with hA
  refine ⟨Nat.le_add_right 12 _, ?_, Nat.le_add_right 40 _, ?_, ?_, ?_, ?_⟩
  · have := hashInt_lt A 1 36 (by norm_num)
    omega
  · have := hashInt_lt A 3 80 (by norm_num)
    omega
  · have h0 := hashFloat_nonneg A 4
    nlinarith
  · have h1 := hashFloat_lt_one A 4
    nlinarith
  · intro i hi
    rw [List.length_map, List.enum_length, List.length_map, List.length_range] at hi
    simp only [List.getElem_map, List.getElem_enum]
    have hlen0 : ((List.range (12 + hashInt A 1 36)).map (baseNode A)).length =
        12 + hashInt A 1 36 := by
      rw [List.length_map, List.length_range]
    have hi0 : i < ((List.range (12 + hashInt A 1 36)).map (baseNode A)).length := by
      rw [hlen0]; exact hi
    have hcl := connectionsFor_length A ((List.range (12 + hashInt A 1 36)).map (baseNode A))
      i hi0
    have hcc := hashInt_lt (A ++ "conn" ++ toString i) i 3 (by norm_num)
    rw [hlen0] at hcl
    refine ⟨?_, ?_, ?_⟩
    · rw [hcl]; omega
    · rw [hcl]; omega
    · exact connectionsFor_not_self A _ i

/-! ### Classifier priority -/

/-- C2: the log classifier resolves overlapping pattern matches by
last-matching-rule priority: burn beats mint beats mev beats whale beats the
`tx` default.  In particular a message matching both a mint and a burn
pattern classifies as `burn`; a transfer with the large-amount marker and no
later rule classifies as `whale` with magnitude in `[0.8, 1)`; a message
matching no pattern classifies as `tx` with magnitude in `[0.3, 0.7)`. -/
theorem classifier_priority (logs : List String) (r0 rW rM : ℚ)
    (h00 : 0 ≤ r0) (h01 : r0 < 1) (hW0 : 0 ≤ rW) (hW1 : rW < 1) :
    (hasMintLog logs = true → hasBurnLog logs = true →
      (classify logs r0 rW rM).1 = .burn) ∧
    (hasTransferLog logs = true → hasLargeAmount logs = true →
      hasSwapLog logs = false → hasMintLog logs = false → hasBurnLog logs = false →
      (classify logs r0 rW rM).1 = .whale ∧
      8 / 10 ≤ (classify logs r0 rW rM).2 ∧ (classify logs r0 rW rM).2 < 1) ∧
    (hasTransferLog logs = false → hasSwapLog logs = false →
      hasMintLog logs = false → hasBurnLog logs = false →
      (classify logs r0 rW rM).1 = .tx ∧
      3 / 10 ≤ (classify logs r0 rW rM).2 ∧ (classify logs r0 rW rM).2 < 7 / 10) ∧
    (hasBurnLog logs = true → (classify logs r0 rW rM).1 = .burn) ∧
    (hasBurnLog logs = false → hasMintLog logs = true →
      (classify logs r0 rW rM).1 = .mint) ∧
    (hasBurnLog logs = false → hasMintLog logs = false → hasSwapLog logs = true →
      (classify logs r0 rW rM).1 = .mev) ∧
    (hasBurnLog logs = false → hasMintLog logs = false → hasSwapLog logs = false →
      hasTransferLog logs = true → hasLargeAmount logs = true →
      (classify logs r0 rW rM).1 = .whale) ∧
    (hasBurnLog logs = false → hasMintLog logs = false → hasSwapLog logs = false →
      (hasTransferLog logs = false ∨ hasLargeAmount logs = false) →
      (classify logs r0 rW rM).1 = .tx) := by
  refine ⟨?_, ?_, ?_, ?_, ?_, ?_, ?_, ?_⟩
  · intro h1 h2
    simp [classify, h1, h2]
  · intro h1 h2 h3 h4 h5
    simp only [classify, h1, h2, h3, h4, h5, if_true, if_false, Bool.false_eq_true]
    refine ⟨trivial, ?_, ?_⟩ <;> dsimp only <;> nlinarith
  · intro h1 h3 h4 h5
    simp only [classify, h1, h3, h4, h5, if_true, if_false, Bool.false_eq_true]
    refine ⟨trivial, ?_, ?_⟩ <;> dsimp only <;> nlinarith
  · intro h5
    simp [classify, h5]
  · intro h5 h4
    simp [classify, h4, h5]
  · intro h5 h4 h3
    simp [classify, h3, h4, h5]
  · intro h5 h4 h3 h1 h2
    simp [classify, h1, h2, h3, h4, h5]
  · intro h5 h4 h3 h12
    rcases h12 with h1 | h2
    · simp [classify, h1, h3, h4, h5]
    · cases h1 : hasTransferLog logs
      · simp [classify, h1, h3, h4, h5]
      · simp [classify, h1, h2, h3, h4, h5]

/-- Witness for C2: a message whose logs match both the mint pattern and the
burn pattern classifies as `burn`. -/
theorem classifier_priority_witness :
    (classify mintBurnLogs (1 / 2) (1 / 2) (1 / 2)).1 = EventType.burn :=
  (classifier_priority mintBurnLogs (1 / 2) (1 / 2) (1 / 2) (by norm_num) (by norm_num)
    (by norm_num) (by norm_num)).1 (by decide) (by decide)

/-! ### Feed-loop invariant -/

theorem feedInv_init : FeedInv initFeed := by
  refine ⟨by norm_num [initFeed], by norm_num [initFeed], ?_, ?_⟩ <;> simp [initFeed]

theorem feedInv_startDemoMode {st : FeedState} (h : FeedInv st) :
    FeedInv (startDemoMode st) := by
  obtain ⟨h1, h2, h3, h4⟩ := h
  cases hda : st.demoActive with
  | true =>
    simp only [startDemoMode, hda, if_true]
    exact ⟨h1, h2, h3, h4⟩
  | false =>
    simp only [startDemoMode, hda, Bool.false_eq_true, if_false]
    refine ⟨h1, h2, fun _ => ?_, fun hq => ?_⟩
    · simp only [h4 hda]
    · simp at hq

theorem feedInv_onClose {st : FeedState} (h : FeedInv st) : FeedInv (onClose st).1 := by
  obtain ⟨h1, h2, h3, h4⟩ := h
  refine ⟨?_, ?_, h3, h4⟩
  · simp only [onClose]
    apply le_min
    · linarith
    · norm_num
  · simp only [onClose]
    exact min_le_right _ _

theorem feedInv_demoTick {st : FeedState} (rand rand2 : ℚ) (now : Nat)
    (h : FeedInv st) (hp : 1 ≤ st.pendingDemo) :
    FeedInv (demoTick rand rand2 now st).1 := by
  obtain ⟨h1, h2, h3, h4⟩ := h
  have hda : st.demoActive = true := by
    cases hda2 : st.demoActive with
    | true => rfl
    | false => rw [h4 hda2] at hp; omega
  have hpd : st.pendingDemo = 1 := h3 hda
  cases hc : st.connected with
  | false =>
    simp only [demoTick, hc, hda, Bool.not_false, Bool.true_and, if_true]
    refine ⟨h1, h2, fun _ => ?_, fun hq => ?_⟩
    · simp [hpd]
    · simp at hq
  | true =>
    simp only [demoTick, hc, hda, Bool.not_true, Bool.false_and, Bool.false_eq_true,
      if_false, if_true]
    refine ⟨h1, h2, fun hq => ?_, fun _ => ?_⟩
    · simp at hq
    · simp [hpd]

theorem feedInv_onMessage {st : FeedState} (now : Nat) (r0 rW rM : ℚ) (raw : Option Json)
    (h : FeedInv st) : FeedInv (onMessage now r0 rW rM raw st).1 := by
  obtain ⟨h1, h2, h3, h4⟩ := h
  cases raw with
  | none => exact ⟨h1, h2, h3, h4⟩
  | some d =>
    rcases hv : chainPRV d with _ | v <;> simp only [onMessage, handleMessage, hv]
    · exact ⟨h1, h2, h3, h4⟩
    · split
      · exact ⟨h1, h2, h3, h4⟩
      · exact ⟨h1, h2, h3, h4⟩

theorem feedInv_connect {st : FeedState} (hasKey : Bool) (h : FeedInv st) :
    FeedInv (connect hasKey st) := by
  cases hasKey with
  | false => exact feedInv_startDemoMode h
  | true => exact ⟨h.1, h.2.1, h.2.2.1, h.2.2.2⟩

theorem feedInv_step {hasKey : Bool} {st st' : FeedState}
    (h : FeedStep hasKey st st') (hinv : FeedInv st) : FeedInv st' := by
  cases h with
  | callConnect => exact feedInv_connect hasKey hinv
  | callDisconnect => exact ⟨hinv.1, hinv.2.1, hinv.2.2.1, hinv.2.2.2⟩
  | openEvt hws => exact ⟨hinv.1, hinv.2.1, hinv.2.2.1, hinv.2.2.2⟩
  | closeEvt hcl => exact feedInv_onClose hinv
  | errorEvt hws =>
    exact feedInv_startDemoMode ⟨hinv.1, hinv.2.1, hinv.2.2.1, hinv.2.2.2⟩
  | msgEvt now r0 rW rM raw hws => exact feedInv_onMessage now r0 rW rM raw hinv
  | demoFire rand rand2 now hp => exact feedInv_demoTick rand rand2 now hinv hp
  | reconnectFire hr =>
    exact feedInv_connect hasKey ⟨hinv.1, hinv.2.1, hinv.2.2.1, hinv.2.2.2⟩

theorem feedInv_reachable {hasKey : Bool} {st : FeedState} (h : FeedReachable hasKey st) :
    FeedInv st := by
  induction h with
  | refl => exact feedInv_init
  | tail hR hstep ih => exact feedInv_step hstep ih

/-! ### Reconnect backoff (C3) -/

/-- C3 counterexample: the code never resets `reconnectDelay` on a successful
connection.  After two closes the delay is 4500 ms; a successful `open` event
leaves it at 4500 ms, and the next close schedules a reconnect after 4500 ms,
not 2000 ms as the claim requires. -/
theorem reconnect_no_reset_cex :
    (onOpen (onClose (onClose initFeed).1).1).connected = true ∧
    (onOpen (onClose (onClose initFeed).1).1).reconnectDelay = 4500 ∧
    (onClose (onOpen (onClose (onClose initFeed).1).1)).2 = 4500 ∧
    (4500 : ℚ) ≠ 2000 := by
  refine ⟨rfl, ?_, ?_, by norm_num⟩ <;>
    · simp only [onClose, onOpen, initFeed]
      rw [min_eq_left (by norm_num), min_eq_left (by norm_num)]
      norm_num

/-- C3 (amended): the reconnect delay starts at 2000 ms; every transport
close schedules a reconnect attempt after the current delay and then
multiplies the delay by 1.5, capping at 30000 ms; on every reachable state
the delay stays within `[2000, 30000]`.  A successful connection, however,
leaves the delay unchanged — the code has no reset. -/
theorem reconnect_backoff (hasKey : Bool) (st : FeedState)
    (h : FeedReachable hasKey st) :
    initFeed.reconnectDelay = 2000 ∧
    2000 ≤ st.reconnectDelay ∧ st.reconnectDelay ≤ 30000 ∧
    (onClose st).2 = st.reconnectDelay ∧
    (onClose st).1.pendingReconnect = true ∧
    (onClose st).1.reconnectDelay = min (st.reconnectDelay * (3 / 2)) 30000 ∧
    (onOpen st).reconnectDelay = st.reconnectDelay := by
  have hinv := feedInv_reachable h
  exact ⟨rfl, hinv.1, hinv.2.1, rfl, rfl, rfl, rfl⟩

/-- Witness for C3 (amended) at the constructor state. -/
theorem reconnect_backoff_witness :
    initFeed.reconnectDelay = 2000 ∧ (onClose initFeed).2 = initFeed.reconnectDelay :=
  ⟨(reconnect_backoff true initFeed Relation.ReflTransGen.refl).1,
   (reconnect_backoff true initFeed Relation.ReflTransGen.refl).2.2.2.1⟩

/-! ### Demo-loop exclusivity (C4) -/

/-- C4: on every reachable state at most one demo-loop timer callback is
outstanding (at most one simulated loop is scheduling itself), and if a live
connection is active when a pending callback fires, the callback delivers no
event, clears `demoActive` and does not reschedule — so the loop terminates
after at most the one already-pending tick. -/
theorem demo_loop_exclusive (hasKey : Bool) (st : FeedState)
    (h : FeedReachable hasKey st) (rand rand2 : ℚ) (now : Nat) :
    st.pendingDemo ≤ 1 ∧
    (st.connected = true →
      (demoTick rand rand2 now st).2 = none ∧
      (demoTick rand rand2 now st).1.demoActive = false ∧
      (demoTick rand rand2 now st).1.pendingDemo = 0) := by
  have hinv := feedInv_reachable h
  have hle : st.pendingDemo ≤ 1 := by
    cases hda : st.demoActive with
    | true => rw [hinv.2.2.1 hda]
    | false => rw [hinv.2.2.2 hda]; omega
  refine ⟨hle, fun hc => ?_⟩
  have h2 : (demoTick rand rand2 now st).2 = none := by
    simp [demoTick, hc]
  have hval : (demoTick rand rand2 now st).1.demoActive = false ∧
      (demoTick rand rand2 now st).1.pendingDemo = st.pendingDemo - 1 := by
    simp [demoTick, hc]
  exact ⟨h2, hval.1, by rw [hval.2]; omega⟩

/-- Witness for C4 at the reachable live state `liveFeedState`. -/
theorem demo_loop_exclusive_witness :
    (demoTick 0 0 0 liveFeedState).2 = none ∧
    (demoTick 0 0 0 liveFeedState).1.demoActive = false := by
  have hreach : FeedReachable true liveFeedState :=
    Relation.ReflTransGen.tail
      (Relation.ReflTransGen.tail Relation.ReflTransGen.refl
        (FeedStep.callConnect initFeed))
      (FeedStep.openEvt (connect true initFeed) rfl)
  have h := demo_loop_exclusive true liveFeedState hreach 0 0 0
  exact ⟨(h.2 rfl).1, (h.2 rfl).2.1⟩

/-! ### Malformed messages (C9) -/

/-- C9: a transport message whose payload fails to parse, or whose parsed
value lacks the `params.result.value` chain, produces no event, leaves the
event counter and last-event timestamp (the whole feed state) unchanged, and
the handler returns normally. -/
theorem malformed_message_skipped (now : Nat) (r0 rW rM : ℚ) (st : FeedState)
    (raw : Option Json)
    (h : raw = none ∨ ∃ d, raw = some d ∧ chainPRV d = none) :
    onMessage now r0 rW rM raw st = (st, none) := by
  rcases h with h | ⟨d, rfl, hd⟩
  · rw [h]; rfl
  · simp only [onMessage, handleMessage, hd]

/-- Witness for C9: a parsed message with no `params` field is skipped. -/
theorem malformed_message_skipped_witness :
    onMessage 0 0 0 0 (some (Json.obj [])) initFeed = (initFeed, none) :=
  malformed_message_skipped 0 0 0 0 initFeed (some (Json.obj []))
    (Or.inr ⟨Json.obj [], rfl, rfl⟩)

/-! ### disconnect() still reconnects (C10) -/

/-- C10: calling `disconnect()` on a live transport clears the connected flag
and closes the socket, but the still-installed `onclose` handler then
schedules a fresh `connect()` after the current delay — disconnecting never
stops event production permanently. -/
theorem disconnect_still_reconnects (st : FeedState) (h : st.wsOpen = true) :
    (disconnect st).connected = false ∧
    (disconnect st).pendingClose = true ∧
    (onClose (disconnect st)).1.pendingReconnect = true ∧
    (onClose (disconnect st)).2 = st.reconnectDelay := by
  refine ⟨rfl, ?_, rfl, rfl⟩
  simp only [disconnect, h, Bool.true_or]

/-- Witness for C10 at a freshly opened transport. -/
theorem disconnect_still_reconnects_witness :
    (disconnect (connect true initFeed)).pendingClose = true ∧
    (onClose (disconnect (connect true initFeed))).1.pendingReconnect = true :=
  ⟨(disconnect_still_reconnects (connect true initFeed) rfl).2.1,
   (disconnect_still_reconnects (connect true initFeed) rfl).2.2.1⟩

/-! ### Demo probability bands (C7) -/

/-- C7 counterexample: the demo loop's `tx` band is exactly the draw interval
`[0.05, 1)`, a fraction of 0.95 of the range — strictly less than the 0.995
the claim asserts; e.g. the draw 0.01 (well above the 0.005 whale band) is
classified `mev`, not `tx`. -/
theorem demo_tx_band_cex :
    {r : ℚ | 0 ≤ r ∧ r < 1 ∧ (demoClassify r (1 / 2)).1 = EventType.tx} =
      Set.Ico (5 / 100 : ℚ) 1 ∧
    (1 : ℚ) - 5 / 100 < 995 / 1000 ∧
    (demoClassify (1 / 100) (1 / 2)).1 = EventType.mev := by
  refine ⟨?_, by norm_num, by norm_num [demoClassify]⟩
  ext r
  simp only [Set.mem_setOf_eq, Set.mem_Ico, demoClassify]
  split_ifs with h1 h2 h3 h4
  · constructor
    · rintro ⟨-, -, hx⟩; exact absurd hx (by decide)
    · rintro ⟨hx, -⟩; linarith
  · constructor
    · rintro ⟨-, -, hx⟩; exact absurd hx (by decide)
    · rintro ⟨hx, -⟩; linarith
  · constructor
    · rintro ⟨-, -, hx⟩; exact absurd hx (by decide)
    · rintro ⟨hx, -⟩; linarith
  · constructor
    · rintro ⟨-, -, hx⟩; exact absurd hx (by decide)
    · rintro ⟨hx, -⟩; linarith
  · constructor
    · rintro ⟨-, hr1, -⟩; exact ⟨by linarith, hr1⟩
    · rintro ⟨hx, hr1⟩; exact ⟨by linarith, hr1, rfl⟩

theorem demoClassify_fst (rand rand2 : ℚ) :
    (demoClassify rand rand2).1 =
      if rand < 5 / 1000 then .whale
      else if rand < 25 / 1000 then .mev
      else if rand < 4 / 100 then .mint
      else if rand < 5 / 100 then .burn
      else .tx := by
  simp only [demoClassify]
  split_ifs <;> rfl

/-- C7 (amended): for a uniform draw in `[0, 1)` the demo loop classifies
`whale` exactly on `[0, 0.005)` (the rarest band, width exactly 0.005), `mev`
on `[0.005, 0.025)`, `mint` on `[0.025, 0.04)`, `burn` on `[0.04, 0.05)` —
strictly decreasing widths — and `tx` exactly on `[0.05, 1)`, a fraction of
0.95 (not ≥ 0.995) of the draw range. -/
theorem demo_bands (rand rand2 : ℚ) (h0 : 0 ≤ rand) (h1 : rand < 1) :
    ((demoClassify rand rand2).1 = .whale ↔ rand < 5 / 1000) ∧
    ((demoClassify rand rand2).1 = .mev ↔ 5 / 1000 ≤ rand ∧ rand < 25 / 1000) ∧
    ((demoClassify rand rand2).1 = .mint ↔ 25 / 1000 ≤ rand ∧ rand < 4 / 100) ∧
    ((demoClassify rand rand2).1 = .burn ↔ 4 / 100 ≤ rand ∧ rand < 5 / 100) ∧
    ((demoClassify rand rand2).1 = .tx ↔ 5 / 100 ≤ rand) ∧
    ((25 : ℚ) / 1000 - 5 / 1000 > 4 / 100 - 25 / 1000) ∧
    ((4 : ℚ) / 100 - 25 / 1000 > 5 / 100 - 4 / 100) ∧
    ((5 : ℚ) / 100 - 4 / 100 > 5 / 1000 - 0) ∧
    ((1 : ℚ) - 5 / 100 = 95 / 100) := by
  refine ⟨?_, ?_, ?_, ?_, ?_, by norm_num, by norm_num, by norm_num, by norm_num⟩ <;>
    · rw [demoClassify_fst]
      split_ifs with ha hb hc hd <;> simp_all
      all_goals try linarith
      all_goals first
        | exact ⟨by linarith, by linarith⟩
        | (intro hx; linarith)

/-- Witness for C7 (amended) at the draw 0. -/
theorem demo_bands_witness :
    (demoClassify 0 0).1 = EventType.whale ↔ (0 : ℚ) < 5 / 1000 :=
  (demo_bands 0 0 (by norm_num) (by norm_num)).1

end KiraArt
